import Mathlib

/-!
Shallow embedding of the taggy-adserver repository (Go) for checking its
natural-language specification.

The repository contains three variants of the ad server:
* `main.go`                      — sqlite-backed server (called "Main" below);
* `src/unnamed/part_000` part 1  — the full-featured sqlite server with
  campaigns, impressions and analytics (called "V1" below);
* `src/unnamed/part_000` part 2  — the in-memory JSON-file server
  (called "V2" below).

Timestamps are modelled as natural numbers (the DB stores RFC3339 /
DATETIME strings whose lexicographic order agrees with time order).
Go's string functions are modelled by the executable definitions in the
string-helpers section below.  `rand.Intn n` is modelled by an arbitrary
natural number `k` reduced modulo the list length, so that the selected
element is `l.get? (k % l.length)`.
-/

deriving instance DecidableEq for Except

/-- Validation errors produced by `validateAd` in V1; each constructor
names the field the Go error message names. -/
inductive ValErr where
  | invalidAdType (t : String)
  | redirectUrlRequired
  | contentRequired
  | imageUrlRequired
  deriving Repr, DecidableEq

/-- Error outcomes surfaced by the HTTP handlers. -/
inductive ApiError where
  | noAdsAvailable
  | notFound
  | validation (e : ValErr)
  | server (msg : String)
  deriving Repr, DecidableEq

/-- Responses of main.go's `/api/ad/click` handler. -/
inductive ClickResp where
  | missingId
  | adNotFound
  | noRedirect
  | redirect (url : String)
  deriving Repr, DecidableEq

/-- An ad as decoded from a JSON request body in V1 (`type Ad struct`).
The default values are the Go zero values that `encoding/json` leaves in
fields the body omits. -/
structure AdInput where
  id : Nat := 0
  adType : String := ""
  content : String := ""
  imageUrl : String := ""
  redirectUrl : String := ""
  tags : List String := []
  campaignId : Nat := 0
  expiresAt : Option Nat := none
  deriving Repr, DecidableEq

/-- A row of V1's `ads` table: tags are stored comma-joined
(`strings.Join(ad.Tags, ",")`), `expires_at` is NULL or a timestamp. -/
structure AdRow where
  id : Nat
  adType : String
  content : String
  imageUrl : String
  redirectUrl : String
  tags : String
  campaignId : Nat
  expiresAt : Option Nat
  deriving Repr, DecidableEq

/-- An ad of main.go (`type Ad struct`), as scanned from its `ads` table
with the tags JSON already unmarshalled into a list. -/
structure MainAd where
  id : Nat
  campaignId : Nat
  adType : String
  content : String
  imageUrl : String
  redirectUrl : String
  tags : List String
  expiresAt : Option Nat
  deriving Repr, DecidableEq

/-- An ad of the in-memory variant V2 (`type Ad struct` with a string id
and no expiry). -/
structure AdV2 where
  id : String
  adType : String
  content : String
  imageUrl : String
  tags : List String
  deriving Repr, DecidableEq

/-- A row of V1's `impressions` table (the attribution event log). -/
structure EventRow where
  adId : Nat
  actionType : String
  ip : String
  userAgent : String
  deriving Repr, DecidableEq

/-- A row of main.go's `impressions` table (ad id and requester ip). -/
structure ClickRow where
  adId : Nat
  ip : String
  deriving Repr, DecidableEq

/-- A stat row produced by V1's `/api/analytics/stats`. -/
structure StatRow where
  adId : Nat
  adType : String
  content : String
  imageUrl : String
  campaignId : Nat
  views : Nat
  clicks : Nat
  ctr : String
  deriving Repr, DecidableEq

/-- V1's database state: the `ads` table and the `impressions` table. -/
structure DB where
  ads : List AdRow
  events : List EventRow
  deriving Repr, DecidableEq

/-! ## String helpers

Executable models of the Go string functions the server uses, written
over `String.data` so that they evaluate inside the kernel.  Unicode
case folding and Unicode whitespace are modelled over ASCII, which is
faithful for every comparison the claims exercise. -/

/-- ASCII model of `unicode.ToLower` on one character. -/
def lowerChar (c : Char) : Char :=
  if 'A' ≤ c ∧ c ≤ 'Z' then Char.ofNat (c.toNat + 32) else c

/-- Model of Go `strings.ToLower`. -/
def lowerStr (s : String) : String := ⟨s.data.map lowerChar⟩

/-- The whitespace characters Go's `strings.TrimSpace` removes
(ASCII portion). -/
def isSpaceChar (c : Char) : Bool :=
  c = ' ' ∨ c = '\t' ∨ c = '\n' ∨ c = '\r'

/-- Model of Go `strings.TrimSpace`. -/
def trimStr (s : String) : String :=
  ⟨((s.data.dropWhile isSpaceChar).reverse.dropWhile isSpaceChar).reverse⟩

/-- Model of Go `strings.EqualFold` (case-insensitive equality). -/
def equalFold (a b : String) : Bool := lowerStr a == lowerStr b

/-- V1 normalises a tag by `strings.TrimSpace(strings.ToLower(t))`. -/
def foldTag (s : String) : String := trimStr (lowerStr s)

/-- Split a character list at a separator (model of `strings.Split`). -/
def splitCharAux (sep : Char) : List Char → List Char → List (List Char)
  | [], acc => [acc.reverse]
  | c :: rest, acc =>
    if c = sep then acc.reverse :: splitCharAux sep rest []
    else splitCharAux sep rest (c :: acc)

/-- V1 reads tags back with `strings.Split(tagsStr, ",")`, guarded by
`tagsStr != ""`. -/
def splitTags (s : String) : List String :=
  if s = "" then [] else (splitCharAux ',' s.data []).map fun l => ⟨l⟩

/-- V1 stores tags with `strings.Join(ad.Tags, ",")`. -/
def joinTags (l : List String) : String :=
  match l with
  | [] => ""
  | s :: rest => rest.foldl (fun acc t => acc ++ "," ++ t) s

/-- Model of `strconv.Atoi` on non-negative input: every character must
be a digit and the string non-empty. -/
def digitVal (c : Char) : Option Nat :=
  if '0' ≤ c ∧ c ≤ '9' then some (c.toNat - '0'.toNat) else none

def parseNatAux : List Char → Nat → Option Nat
  | [], acc => some acc
  | c :: rest, acc =>
    match digitVal c with
    | some d => parseNatAux rest (acc * 10 + d)
    | none => none

def parseNat? (s : String) : Option Nat :=
  if s.data.isEmpty then none else parseNatAux s.data 0

/-! ## Expiry checks -/

/-- The SQL filter V1 uses for selection and activeOnly listing:
`expires_at IS NULL OR expires_at > datetime('now')`. -/
def sqlActive (exp : Option Nat) (now : Nat) : Bool :=
  match exp with
  | none => true
  | some t => decide (now < t)

/-- main.go's in-handler expiry check: a row is skipped iff its expiry
parses and `t.Before(now)`; so it is kept iff the expiry is absent or
not strictly before `now`. -/
def mainActive (exp : Option Nat) (now : Nat) : Bool :=
  match exp with
  | none => true
  | some t => ! decide (t < now)

/-! ## Tag matching -/

/-- main.go `anyMatch`: some ad tag equals some preference under
`strings.EqualFold(strings.TrimSpace(a), strings.TrimSpace(p))`. -/
def anyMatch (adTags prefs : List String) : Bool :=
  adTags.any fun a => prefs.any fun p => equalFold (trimStr a) (trimStr p)

/-- V1 `matchesTags`: an empty user-tag list, or a single all-whitespace
user tag, matches everything; otherwise some non-blank normalised user
tag must equal some normalised ad tag. -/
def matchesTags (adTags userTags : List String) : Bool :=
  if userTags.length = 0 ∨ (userTags.length = 1 ∧ trimStr (userTags.headD "") = "") then
    true
  else
    userTags.any fun ut =>
      let u := foldTag ut
      u != "" && adTags.any fun a => foldTag a == u

/-- V2 `anyMatch`: `strings.EqualFold(a, p)` with no trimming. -/
def anyMatchV2 (adTags prefs : List String) : Bool :=
  adTags.any fun a => prefs.any fun p => equalFold a p

/-! ## Random-ad handlers -/

/-- main.go `handleRandomAd`'s `available` list: a scanned row survives
iff it is not expired and (no preferences were given or `anyMatch`). -/
def mainAvailable (rows : List MainAd) (prefs : List String) (now : Nat) : List MainAd :=
  rows.filter fun ad => mainActive ad.expiresAt now && (prefs.isEmpty || anyMatch ad.tags prefs)

/-- main.go `handleRandomAd`: 404 "no ads available" when `available` is
empty, otherwise `available[rand.Intn(len(available))]`. -/
def handleRandomAdMain (rows : List MainAd) (prefs : List String) (now k : Nat) :
    Except ApiError MainAd :=
  let avail := mainAvailable rows prefs now
  match avail.get? (k % avail.length) with
  | some ad => .ok ad
  | none => .error .noAdsAvailable

/-- V1 `handleRandomAd`'s per-row `rows.Scan`: the SELECT names 7 columns
(`id, ad_type, content, image_url, redirect_url, tags, campaign_id`) but
Scan is given 8 destinations (the extra `&a.ExpiresAt`), so database/sql
reports an error for every row and the loop `continue`s past it. -/
def scanRandomAdRowV1 (_r : AdRow) : Option AdRow := none

/-- V1 `handleRandomAd`: the SQL keeps non-expired rows, each row is then
scanned (see `scanRandomAdRowV1`) and kept when `matchesTags`; 404 when no
candidates remain, otherwise a uniformly random candidate. -/
def handleRandomAdV1 (rows : List AdRow) (tags : List String) (now k : Nat) :
    Except ApiError AdRow :=
  let active := rows.filter fun r => sqlActive r.expiresAt now
  let candidates := active.filterMap fun r =>
    match scanRandomAdRowV1 r with
    | none => none
    | some a => if matchesTags (splitTags a.tags) tags then some a else none
  match candidates.get? (k % candidates.length) with
  | some a => .ok a
  | none => .error .noAdsAvailable

/-- V2 `handleRandomAd`'s `filtered` list: empty when no preferences were
given, else the ads whose tags `anyMatch` the preferences. -/
def filteredV2 (ads : List AdV2) (prefs : List String) : List AdV2 :=
  if prefs.isEmpty then [] else ads.filter fun ad => anyMatchV2 ad.tags prefs

/-- V2 `handleRandomAd`: the pool is `filtered` when non-empty, else the
whole ad list; 404 only when the pool is empty. -/
def handleRandomAdV2 (ads : List AdV2) (prefs : List String) (k : Nat) :
    Except ApiError AdV2 :=
  let pool := if (filteredV2 ads prefs).isEmpty then ads else filteredV2 ads prefs
  match pool.get? (k % pool.length) with
  | some ad => .ok ad
  | none => .error .noAdsAvailable

/-- V1 `handleListAds`: with `active=true` the query adds the
`sqlActive` WHERE clause, otherwise it returns every row. -/
def listAdsV1 (rows : List AdRow) (activeOnly : Bool) (now : Nat) : List AdRow :=
  if activeOnly then rows.filter (fun r => sqlActive r.expiresAt now) else rows

/-! ## Shared helper lemmas about the random pick -/

theorem pickRandom_some {α : Type} (l : List α) (k : Nat) (h : l ≠ []) :
    ∃ a, l.get? (k % l.length) = some a ∧ a ∈ l := by
  have hl : 0 < l.length := List.length_pos.mpr h
  have hk : k % l.length < l.length := Nat.mod_lt _ hl
  exact ⟨l.get ⟨k % l.length, hk⟩, List.get?_eq_get hk, List.get_mem _ _ _⟩

theorem pickRandom_none {α : Type} (l : List α) (k : Nat) (h : l = []) :
    l.get? (k % l.length) = none := by
  subst h; rfl

theorem filterMap_scan_none {α β : Type} (l : List α) (f : α → Option β)
    (hf : ∀ a, f a = none) : l.filterMap f = [] := by
  induction l with
  | nil => rfl
  | cons a t ih => simp [List.filterMap_cons, hf a, ih]

/-! ## Ad creation and update (V1 and main.go) -/

/-- V1 `validateAd`: checks kind, redirect target, and the
kind-dependent content field, in the source order. -/
def validateAd (ad : AdInput) : Option ValErr :=
  if ad.adType ≠ "text" ∧ ad.adType ≠ "image" then some (.invalidAdType ad.adType)
  else if ad.redirectUrl = "" then some .redirectUrlRequired
  else if ad.adType = "text" ∧ ad.content = "" then some .contentRequired
  else if ad.adType = "image" ∧ ad.imageUrl = "" then some .imageUrlRequired
  else none

/-- V1 `insertAd`'s row: tags comma-joined, expiry kept as NULL or the
given timestamp, a fresh id assigned by AUTOINCREMENT. -/
def toRowV1 (nextId : Nat) (ad : AdInput) : AdRow :=
  { id := nextId, adType := ad.adType, content := ad.content,
    imageUrl := ad.imageUrl, redirectUrl := ad.redirectUrl,
    tags := joinTags ad.tags, campaignId := ad.campaignId,
    expiresAt := ad.expiresAt }

/-- V1 `handleAddAd`: validate, then insert; a validation failure is
returned as a 400 and nothing is stored. -/
def handleAddAdV1 (store : List AdRow) (nextId : Nat) (ad : AdInput) :
    Except ValErr (List AdRow) :=
  match validateAd ad with
  | some e => .error e
  | none => .ok (store ++ [toRowV1 nextId ad])

/-- main.go `handleAddAd`: the request body is decoded and INSERTed into
`ads` directly — the handler calls no validation at all. -/
def handleAddAdMain (store : List AdInput) (ad : AdInput) :
    Except ApiError (List AdInput) :=
  .ok (store ++ [ad])

/-- The SET clause of V1 `handleUpdateAd`: all seven stored fields are
overwritten with the request's values. -/
def updateRow (ad : AdInput) (r : AdRow) : AdRow :=
  { r with
    adType := ad.adType
    content := ad.content
    imageUrl := ad.imageUrl
    redirectUrl := ad.redirectUrl
    tags := joinTags ad.tags
    campaignId := ad.campaignId
    expiresAt := ad.expiresAt }

/-- V1 `handleUpdateAd`: validate, `UPDATE ... WHERE id=?`, and report
404 when `RowsAffected` is 0. -/
def handleUpdateAdV1 (store : List AdRow) (id : Nat) (ad : AdInput) :
    Except ApiError (List AdRow) :=
  match validateAd ad with
  | some e => .error (.validation e)
  | none =>
    if store.any fun r => r.id = id then
      .ok (store.map fun r => if r.id = id then updateRow ad r else r)
    else .error .notFound

/-! ## Click-through and impression recording -/

/-- main.go's lookup `SELECT redirect_url FROM ads WHERE id = ?`. -/
def findAdMain (ads : List MainAd) (i : Nat) : Option MainAd :=
  ads.find? fun a => a.id = i

/-- main.go `handleAdClick`: 400 on a missing id, 404 when the SELECT
finds no row; otherwise the impression INSERT runs first and only then
is the empty-redirect check made, so the 404 "no redirect for this ad"
response is produced with the click already logged. -/
def handleAdClick (ads : List MainAd) (log : List ClickRow) (idStr ip : String) :
    ClickResp × List ClickRow :=
  if idStr = "" then (.missingId, log)
  else
    match parseNat? idStr with
    | none => (.adNotFound, log)
    | some i =>
      match findAdMain ads i with
      | none => (.adNotFound, log)
      | some ad =>
        let log2 := log ++ [⟨i, ip⟩]
        if ad.redirectUrl = "" then (.noRedirect, log2)
        else (.redirect ad.redirectUrl, log2)

/-- The columns of V1's `impressions` table, from `createTables`. -/
def impressionsCols : List String :=
  ["id", "ad_id", "action_type", "ip", "user_agent", "viewed_at"]

/-- Model of executing an INSERT INTO impressions that names the given
columns, on a sqlite connection opened with `?_fk=1`: the statement is
rejected when it names a column the table does not have, and the foreign
key `ad_id REFERENCES ads(id)` rejects an ad id that does not exist. -/
def execInsertImpression (db : DB) (cols : List String) (row : EventRow) :
    Except String DB :=
  if ¬ (cols.all fun c => impressionsCols.contains c) then
    .error "table impressions has no such column"
  else if ¬ (db.ads.any fun a => a.id = row.adId) then
    .error "FOREIGN KEY constraint failed"
  else .ok { db with
             events := db.events ++ [row] }

/-- V1 `handleImpression`: no existence check of the ad id is made; the
handler runs `INSERT INTO impressions (ad_id, ad_type, ip, user_agent)`
— naming `ad_type`, a column the impressions table does not have — and
maps any insert failure to a 500 "failed to log impression". -/
def handleImpression (db : DB) (adId : Nat) (ip ua : String) :
    Except ApiError String × DB :=
  match execInsertImpression db ["ad_id", "ad_type", "ip", "user_agent"]
      ⟨adId, "view", ip, ua⟩ with
  | .ok db2 => (.ok "logged", db2)
  | .error _ => (.error (.server "failed to log impression"), db)

/-! ## Analytics (V1 `handleAnalyticsStats`) -/

/-- Number of rows the `LEFT JOIN impressions i ON a.id = i.ad_id`
produces for one ad: its event count, or a single NULL-extended row when
it has no events. -/
def leftJoinRowCount (events : List EventRow) (adId : Nat) : Nat :=
  let n := (events.filter fun e => e.adId = adId).length
  if n = 0 then 1 else n

/-- The `views` column as the query computes it:
`SUM(CASE WHEN a.ad_type = 'view' THEN 1 ELSE 0 END)` — the CASE tests
the AD's type column, not the event's `action_type`. -/
def statViewsCode (a : AdRow) (events : List EventRow) : Nat :=
  if a.adType = "view" then leftJoinRowCount events a.id else 0

/-- The `clicks` column as the query computes it, likewise testing
`a.ad_type = 'click'`. -/
def statClicksCode (a : AdRow) (events : List EventRow) : Nat :=
  if a.adType = "click" then leftJoinRowCount events a.id else 0

/-- Round `num / den` to the nearest integer, ties to even — the
rounding Go's fixed-point formatting applies. -/
def roundHalfEvenDiv (num den : Nat) : Nat :=
  let q := num / den
  let r := num % den
  if 2 * r < den then q
  else if den < 2 * r then q + 1
  else if q % 2 = 0 then q else q + 1

/-- Two-digit zero-padded rendering of a number below 100. -/
def pad2 (n : Nat) : String :=
  if n < 10 then "0" ++ toString n else toString n

/-- Model of `fmt.Sprintf("%.2f%%", float64(clicks)/float64(views)*100)`:
the percentage in hundredths, rendered with exactly two decimals and a
trailing percent sign. -/
def fmtPercent2 (clicks views : Nat) : String :=
  let h := roundHalfEvenDiv (10000 * clicks) views
  toString (h / 100) ++ "." ++ pad2 (h % 100) ++ "%"

/-- The CTR branch of the stats loop: `"%.2f%%"` when `Views > 0`, the
literal `"0%"` otherwise. -/
def ctrString (views clicks : Nat) : String :=
  if 0 < views then fmtPercent2 clicks views else "0%"

/-- One output row of the stats query for ad `a`. -/
def computeStatsRow (events : List EventRow) (a : AdRow) : StatRow :=
  let v := statViewsCode a events
  let c := statClicksCode a events
  { adId := a.id, adType := a.adType, content := a.content,
    imageUrl := a.imageUrl, campaignId := a.campaignId,
    views := v, clicks := c, ctr := ctrString v c }

/-- V1 `handleAnalyticsStats`: one row per ad (`GROUP BY a.id` over the
LEFT JOIN). The final `ORDER BY views DESC` only permutes rows and is
omitted; every property below is order-insensitive. -/
def computeStats (ads : List AdRow) (events : List EventRow) : List StatRow :=
  ads.map (computeStatsRow events)

/-- The count the spec describes: this ad's attribution events of the
given kind, read off the event log. -/
def countKind (events : List EventRow) (adId : Nat) (kind : String) : Nat :=
  (events.filter fun e => e.adId = adId ∧ e.actionType = kind).length

/-! ## Concrete sample data used by witnesses and counterexamples -/

def adM1 : MainAd :=
  { id := 1, campaignId := 0, adType := "text", content := "hello",
    imageUrl := "", redirectUrl := "https://example.com", tags := ["a"],
    expiresAt := none }

def adMExpNow : MainAd :=
  { id := 2, campaignId := 0, adType := "text", content := "boundary",
    imageUrl := "", redirectUrl := "https://example.com", tags := [],
    expiresAt := some 100 }

def adMNoRedirect : MainAd :=
  { id := 3, campaignId := 0, adType := "text", content := "dead end",
    imageUrl := "", redirectUrl := "", tags := [], expiresAt := none }

def adV2a : AdV2 :=
  { id := "a1", adType := "text", content := "v2 ad", imageUrl := "",
    tags := ["vegan"] }

def rowA : AdRow :=
  { id := 1, adType := "text", content := "hello", imageUrl := "",
    redirectUrl := "https://example.com", tags := "a", campaignId := 0,
    expiresAt := none }

def evView1 : EventRow := { adId := 1, actionType := "view", ip := "", userAgent := "" }

def adBogus : AdInput := { adType := "bogus", redirectUrl := "" }

def adTextNoContent : AdInput := { adType := "text", redirectUrl := "https://x" }

def adUpd : AdInput :=
  { adType := "image", imageUrl := "/static/images/i.png",
    redirectUrl := "https://upd.example", tags := ["x", "y"],
    campaignId := 7, expiresAt := some 500 }

/-! ## C3: expiry boundary -/

/-- C3 counterexample: the claim says an ad whose `expires_at` equals the
current time is inactive (ineligible for selection), but main.go's
handler keeps a row unless its expiry is strictly before `now`, so at
`now = 100` it serves the ad whose expiry is exactly 100. -/
theorem C3_counterexample :
    adMExpNow.expiresAt = some 100 ∧
    handleRandomAdMain [adMExpNow] [] 100 0 = .ok adMExpNow ∧
    ¬ (100 < 100) := by decide

/-- C3 (amended): V1's SQL filter (used by selection and by activeOnly
listing) treats an ad as active iff its expiry is absent or strictly
greater than now — `expires_at = now` inactive, `now + 1` active, as the
claim states — while main.go's selection check treats an ad as active
iff its expiry is absent or at least `now`, so `expires_at = now` is
still eligible there. -/
theorem C3_expiry_boundary_amended (t now : Nat) (rows : List AdRow) (r : AdRow) :
    (sqlActive none now = true) ∧
    (sqlActive (some t) now = true ↔ now < t) ∧
    (sqlActive (some now) now = false) ∧
    (sqlActive (some (now + 1)) now = true) ∧
    (mainActive none now = true) ∧
    (mainActive (some t) now = true ↔ now ≤ t) ∧
    (mainActive (some now) now = true) ∧
    (r ∈ listAdsV1 rows true now ↔ r ∈ rows ∧ sqlActive r.expiresAt now = true) := by
  refine ⟨rfl, ?_, ?_, ?_, rfl, ?_, ?_, ?_⟩
  · simp [sqlActive]
  · simp [sqlActive]
  · simp [sqlActive]
  · simp [mainActive, Nat.not_lt]
  · simp [mainActive]
  · simp [listAdsV1, List.mem_filter]

/-! ## C4: tag matching -/

/-- C4 counterexample: the second variant's `anyMatch` compares with
`strings.EqualFold` but never trims, so the ad tag "Organic" does not
match the requested tag " organic " there, although the two are equal
after trimming and case folding. -/
theorem C4_counterexample :
    anyMatchV2 ["Organic"] [" organic "] = false ∧
    lowerStr (trimStr " organic ") = lowerStr (trimStr "Organic") := by decide

/-- C4 (amended): main.go's `anyMatch` and V1's `matchesTags` hold
exactly when some ad tag and some requested tag are equal after trimming
and case folding (so "Organic" matches " organic "), and V1 additionally
treats an empty or all-whitespace request as matching everything; the
second variant's `anyMatch` is case-insensitive but does not trim. -/
theorem C4_tag_match_amended (adTags prefs : List String) (a p : String) :
    (anyMatch adTags prefs = true ↔
       ∃ x ∈ adTags, ∃ y ∈ prefs, lowerStr (trimStr x) = lowerStr (trimStr y)) ∧
    (anyMatch [a] [p] = true ↔ lowerStr (trimStr a) = lowerStr (trimStr p)) ∧
    (anyMatch ["Organic"] [" organic "] = true) ∧
    (matchesTags ["Organic"] [" organic "] = true) ∧
    (matchesTags adTags prefs = true ↔
       (prefs.length = 0 ∨ (prefs.length = 1 ∧ trimStr (prefs.headD "") = "") ∨
        ∃ y ∈ prefs, foldTag y ≠ "" ∧ ∃ x ∈ adTags, foldTag x = foldTag y)) ∧
    (anyMatchV2 adTags prefs = true ↔ ∃ x ∈ adTags, ∃ y ∈ prefs, lowerStr x = lowerStr y) ∧
    (anyMatchV2 ["Organic"] [" organic "] = false) := by
  refine ⟨?_, ?_, by decide, by decide, ?_, ?_, by decide⟩
  · simp [anyMatch, List.any_eq_true, equalFold, beq_iff_eq]
  · simp [anyMatch, List.any_eq_true, equalFold, beq_iff_eq]
  · by_cases h : prefs.length = 0 ∨ (prefs.length = 1 ∧ trimStr (prefs.headD "") = "")
    · simp only [matchesTags, if_pos h]
      tauto
    · simp only [matchesTags, if_neg h, List.any_eq_true, Bool.and_eq_true,
        bne_iff_ne, beq_iff_eq]
      tauto
  · simp [anyMatchV2, List.any_eq_true, equalFold, beq_iff_eq]

/-! ## C6: analytics counts -/

/-- C6: the stats query counts `CASE WHEN a.ad_type = 'view'` — the ad's
type column, never 'view' or 'click' — instead of the event's
`action_type`, so an ad with one recorded view event is reported with
`views = 0`, while the event log holds one view for it. -/
theorem C6_stats_views_bug :
    (computeStats [rowA] [evView1]).map (fun s => (s.adId, s.views, s.clicks)) = [(1, 0, 0)] ∧
    countKind [evView1] 1 "view" = 1 ∧
    countKind [evView1] 1 "click" = 0 := by decide

/-! ## C5: attribution referential integrity -/

/-- C5: V1's `handleImpression` makes no existence check and its INSERT
names the nonexistent column `ad_type`, so recording a view against a
missing ad id answers with the 500 "failed to log impression" — a server
fault, not NotFoundError — though indeed no event row is created (the
insert also fails for an existing ad); main.go's click path does answer
404 with the log unchanged. -/
theorem C5_impression_not_found_bug :
    (handleImpression ⟨[], []⟩ 7 "203.0.113.9" "Mozilla").1
        = .error (.server "failed to log impression") ∧
    (handleImpression ⟨[], []⟩ 7 "203.0.113.9" "Mozilla").2 = ⟨[], []⟩ ∧
    (handleImpression ⟨[rowA], []⟩ 1 "203.0.113.9" "Mozilla").1
        = .error (.server "failed to log impression") ∧
    (handleImpression ⟨[rowA], []⟩ 1 "203.0.113.9" "Mozilla").2 = ⟨[rowA], []⟩ ∧
    handleAdClick [] [] "7" "1.1.1.1" = (.adNotFound, []) := by decide

/-! ## Behaviour of the three random-ad handlers (shared lemmas) -/

/-- main.go: a non-empty `available` list yields one of its members. -/
theorem handleRandomAdMain_ok (rows : List MainAd) (prefs : List String) (now k : Nat)
    (h : mainAvailable rows prefs now ≠ []) :
    ∃ ad, handleRandomAdMain rows prefs now k = .ok ad ∧
      ad ∈ rows ∧ mainActive ad.expiresAt now = true ∧
      (prefs ≠ [] → anyMatch ad.tags prefs = true) := by
  obtain ⟨ad, hget, hmem⟩ := pickRandom_some (mainAvailable rows prefs now) k h
  refine ⟨ad, ?_, ?_, ?_, ?_⟩
  · simp only [handleRandomAdMain, hget]
  · exact (List.mem_filter.mp hmem).1
  · have hb := (List.mem_filter.mp hmem).2
    simp only [Bool.and_eq_true] at hb
    exact hb.1
  · intro hp
    have hb := (List.mem_filter.mp hmem).2
    simp only [Bool.and_eq_true] at hb
    have h2 := hb.2
    cases prefs with
    | nil => exact absurd rfl hp
    | cons x xs => simpa using h2

/-- main.go: an empty `available` list yields the no-ads error. -/
theorem handleRandomAdMain_err (rows : List MainAd) (prefs : List String) (now k : Nat)
    (h : mainAvailable rows prefs now = []) :
    handleRandomAdMain rows prefs now k = .error .noAdsAvailable := by
  have hn := pickRandom_none (mainAvailable rows prefs now) k h
  simp only [handleRandomAdMain, hn]

/-- V2: a non-empty `filtered` list is the pool, and the pick matches. -/
theorem handleRandomAdV2_ok_filtered (ads : List AdV2) (prefs : List String) (k : Nat)
    (h : filteredV2 ads prefs ≠ []) :
    ∃ ad, handleRandomAdV2 ads prefs k = .ok ad ∧
      ad ∈ ads ∧ anyMatchV2 ad.tags prefs = true := by
  have hpe : prefs.isEmpty = false := by
    cases hb : prefs.isEmpty
    · rfl
    · exact absurd (by simp [filteredV2, hb]) h
  have hfe : filteredV2 ads prefs = ads.filter fun ad => anyMatchV2 ad.tags prefs := by
    simp [filteredV2, hpe]
  have hie : (filteredV2 ads prefs).isEmpty = false := by
    cases hb : (filteredV2 ads prefs).isEmpty
    · rfl
    · exact absurd (List.isEmpty_iff.mp hb) h
  have hpool : (if (filteredV2 ads prefs).isEmpty then ads else filteredV2 ads prefs)
      = filteredV2 ads prefs := by simp [hie]
  obtain ⟨ad, hget, hmem⟩ := pickRandom_some (filteredV2 ads prefs) k h
  rw [hfe] at hmem
  exact ⟨ad, by simp only [handleRandomAdV2, hpool, hget],
    (List.mem_filter.mp hmem).1, (List.mem_filter.mp hmem).2⟩

/-- V2: an empty `filtered` list falls back to the full ad list. -/
theorem handleRandomAdV2_ok_fallback (ads : List AdV2) (prefs : List String) (k : Nat)
    (hf : filteredV2 ads prefs = []) (hne : ads ≠ []) :
    ∃ ad, handleRandomAdV2 ads prefs k = .ok ad ∧ ad ∈ ads := by
  have hpool : (if (filteredV2 ads prefs).isEmpty then ads else filteredV2 ads prefs)
      = ads := by simp [hf]
  obtain ⟨ad, hget, hmem⟩ := pickRandom_some ads k hne
  exact ⟨ad, by simp only [handleRandomAdV2, hpool, hget], hmem⟩

/-- V2: the no-ads error happens exactly on an empty ad list. -/
theorem handleRandomAdV2_err_iff (ads : List AdV2) (prefs : List String) (k : Nat) :
    handleRandomAdV2 ads prefs k = .error .noAdsAvailable ↔ ads = [] := by
  constructor
  · intro he
    by_contra hne
    by_cases hf : filteredV2 ads prefs = []
    · obtain ⟨ad, hok, _⟩ := handleRandomAdV2_ok_fallback ads prefs k hf hne
      rw [hok] at he
      exact absurd he (by simp)
    · obtain ⟨ad, hok, _, _⟩ := handleRandomAdV2_ok_filtered ads prefs k hf
      rw [hok] at he
      exact absurd he (by simp)
  · intro he
    subst he
    have hf : filteredV2 ([] : List AdV2) prefs = [] := by
      by_cases hp : prefs.isEmpty <;> simp [filteredV2, hp]
    have hpool : (if (filteredV2 ([] : List AdV2) prefs).isEmpty
        then ([] : List AdV2) else filteredV2 [] prefs) = [] := by simp [hf]
    simp only [handleRandomAdV2, hpool]
    rfl

/-- V1: every request ends in the no-ads error, because the per-row Scan
(8 destinations for 7 selected columns) fails on every row. -/
theorem handleRandomAdV1_always_err (rows : List AdRow) (tags : List String) (now k : Nat) :
    handleRandomAdV1 rows tags now k = .error .noAdsAvailable := by
  have hcand : (rows.filter fun r => sqlActive r.expiresAt now).filterMap
      (fun r => match scanRandomAdRowV1 r with
        | none => none
        | some a => if matchesTags (splitTags a.tags) tags then some a else none)
      = [] := filterMap_scan_none _ _ fun a => rfl
  simp only [handleRandomAdV1, hcand]
  rfl

/-! ## C1 and C2: selection, fallback and the no-ads error -/

/-- C1 counterexample: a non-empty active pool (one unexpired ad tagged
"a") and the requested tag set ["b"]: the matching set is empty and the
claim demands fallback to the full pool, but main.go's handler answers
the 404 "no ads available" error instead. -/
theorem C1_counterexample :
    mainActive adM1.expiresAt 0 = true ∧
    anyMatch adM1.tags ["b"] = false ∧
    handleRandomAdMain [adM1] ["b"] 0 0 = .error .noAdsAvailable := by decide

/-- C1 (amended): when the matching set is non-empty every variant that
reaches a pick returns a member of it, and an empty requested tag set
selects from the full pool; but on a non-empty pool whose ads match none
of the requested tags only the second variant falls back to the full
pool — main.go answers the no-ads error (`mainAvailable` empty), and
V1's handler always answers the no-ads error because its per-row Scan
receives 8 destinations for 7 selected columns. -/
theorem C1_selection_fallback_amended
    (rows : List MainAd) (prefs : List String) (now k : Nat)
    (ads2 : List AdV2) (prefs2 : List String) (k2 : Nat)
    (rows1 : List AdRow) (tags1 : List String) (now1 k1 : Nat) :
    (mainAvailable rows prefs now ≠ [] →
      ∃ ad, handleRandomAdMain rows prefs now k = .ok ad ∧
        ad ∈ rows ∧ mainActive ad.expiresAt now = true ∧
        (prefs ≠ [] → anyMatch ad.tags prefs = true)) ∧
    (mainAvailable rows prefs now = [] →
      handleRandomAdMain rows prefs now k = .error .noAdsAvailable) ∧
    (filteredV2 ads2 prefs2 ≠ [] →
      ∃ ad, handleRandomAdV2 ads2 prefs2 k2 = .ok ad ∧
        ad ∈ ads2 ∧ anyMatchV2 ad.tags prefs2 = true) ∧
    (filteredV2 ads2 prefs2 = [] → ads2 ≠ [] →
      ∃ ad, handleRandomAdV2 ads2 prefs2 k2 = .ok ad ∧ ad ∈ ads2) ∧
    (handleRandomAdV1 rows1 tags1 now1 k1 = .error .noAdsAvailable) :=
  ⟨handleRandomAdMain_ok rows prefs now k,
   handleRandomAdMain_err rows prefs now k,
   handleRandomAdV2_ok_filtered ads2 prefs2 k2,
   handleRandomAdV2_ok_fallback ads2 prefs2 k2,
   handleRandomAdV1_always_err rows1 tags1 now1 k1⟩

/-- C1 witness: with one active ad tagged "a" and the request ["a"],
main.go returns that matching ad; with the request ["zz"] matching
nothing, the second variant falls back to the full pool. -/
theorem C1_witness :
    (∃ ad, handleRandomAdMain [adM1] ["a"] 0 0 = .ok ad ∧
       ad ∈ [adM1] ∧ mainActive ad.expiresAt 0 = true ∧
       ((["a"] : List String) ≠ [] → anyMatch ad.tags ["a"] = true)) ∧
    (∃ ad, handleRandomAdV2 [adV2a] ["zz"] 0 = .ok ad ∧ ad ∈ [adV2a]) := by
  constructor
  · exact (C1_selection_fallback_amended [adM1] ["a"] 0 0 [] [] 0 [] [] 0 0).1 (by decide)
  · exact (C1_selection_fallback_amended [] [] 0 0 [adV2a] ["zz"] 0 [] [] 0 0).2.2.2.1
      (by decide) (by decide)

/-- C2 counterexample: two requests over non-empty pools that still end
in the 404 "no ads available" outcome: main.go with a non-empty active
pool and the unmatched tag set ["zz"], and V1 with an active ad whose
tags do match the request (its row Scan fails, see
`scanRandomAdRowV1`). -/
theorem C2_counterexample :
    mainActive adM1.expiresAt 0 = true ∧
    handleRandomAdMain [adM1] ["zz"] 0 0 = .error .noAdsAvailable ∧
    sqlActive rowA.expiresAt 0 = true ∧
    matchesTags (splitTags rowA.tags) ["a"] = true ∧
    handleRandomAdV1 [rowA] ["a"] 0 0 = .error .noAdsAvailable := by decide

/-- C2 (amended): the second variant answers the no-ads error exactly
when its pool is empty, as the claim states; main.go answers it exactly
when the filtered `available` list is empty — which over a non-empty
pool also happens whenever a non-empty tag set matches nothing — and
V1's handler answers it on every request (Scan arity bug). -/
theorem C2_noads_iff_amended
    (rows : List MainAd) (prefs : List String) (now k : Nat)
    (ads2 : List AdV2) (prefs2 : List String) (k2 : Nat)
    (rows1 : List AdRow) (tags1 : List String) (now1 k1 : Nat) :
    (handleRandomAdV2 ads2 prefs2 k2 = .error .noAdsAvailable ↔ ads2 = []) ∧
    (handleRandomAdMain rows prefs now k = .error .noAdsAvailable ↔
       mainAvailable rows prefs now = []) ∧
    (handleRandomAdV1 rows1 tags1 now1 k1 = .error .noAdsAvailable) := by
  refine ⟨handleRandomAdV2_err_iff ads2 prefs2 k2, ⟨?_, handleRandomAdMain_err rows prefs now k⟩,
    handleRandomAdV1_always_err rows1 tags1 now1 k1⟩
  intro he
  by_contra hne
  obtain ⟨ad, hok, _⟩ := handleRandomAdMain_ok rows prefs now k hne
  rw [hok] at he
  exact absurd he (by simp)

/-! ## C7: CTR formatting -/

/-- `roundHalfEvenDiv num den` is within half a unit of `num / den`. -/
theorem roundHalfEvenDiv_nearest (num den : Nat) (hd : 0 < den) :
    2 * ((roundHalfEvenDiv num den : ℤ) * den - num).natAbs ≤ den := by
  have hqr : den * (num / den) + num % den = num := Nat.div_add_mod num den
  have hr : num % den < den := Nat.mod_lt _ hd
  simp only [roundHalfEvenDiv]
  set q := num / den
  set r := num % den
  have hcast : (num : ℤ) = (den : ℤ) * q + r := by exact_mod_cast hqr.symm
  have habs1 : ((q : ℤ) * den - num).natAbs = r := by
    rw [hcast]
    have he : ((q : ℤ) * den - ((den : ℤ) * q + r)) = -(r : ℤ) := by ring
    rw [he, Int.natAbs_neg, Int.natAbs_ofNat]
  have habs2 : (((q : ℤ) + 1) * den - num).natAbs = den - r := by
    rw [hcast]
    have he : (((q : ℤ) + 1) * den - ((den : ℤ) * q + r)) = (den : ℤ) - r := by ring
    rw [he]
    omega
  have hq1 : ((q + 1 : ℕ) : ℤ) = (q : ℤ) + 1 := by push_cast; ring
  split_ifs with h1 h2 h3
  · rw [habs1]; omega
  · rw [hq1, habs2]; omega
  · rw [habs1]; omega
  · rw [hq1, habs2]; omega

/-- C7: every stat row's `ctr` field is produced by the CTR branch of
the loop; that branch renders clicks/views as a percentage with exactly
two decimal places and a trailing percent sign when `views > 0`
(10 views and 3 clicks give "30.00%"), and is the literal "0%" when
`views = 0` regardless of clicks. -/
theorem C7_ctr_format (ads : List AdRow) (events : List EventRow)
    (s : StatRow) (views clicks : Nat) :
    (s ∈ computeStats ads events → s.ctr = ctrString s.views s.clicks) ∧
    (views = 0 → ctrString views clicks = "0%") ∧
    (0 < views → ∃ h : Nat,
       2 * ((h : ℤ) * views - 10000 * clicks).natAbs ≤ views ∧
       ctrString views clicks = toString (h / 100) ++ "." ++ pad2 (h % 100) ++ "%") ∧
    ctrString 10 3 = "30.00%" ∧ ctrString 0 9 = "0%" := by
  refine ⟨?_, ?_, ?_, by decide, by decide⟩
  · intro hmem
    obtain ⟨a, _, rfl⟩ := List.mem_map.mp hmem
    rfl
  · intro h0
    simp [ctrString, h0]
  · intro hv
    refine ⟨roundHalfEvenDiv (10000 * clicks) views,
      roundHalfEvenDiv_nearest (10000 * clicks) views hv, ?_⟩
    simp [ctrString, hv, fmtPercent2]

/-- C7 witness: the theorem applied at 0 views (policy branch) and at
10 views, 3 clicks (formatted branch). -/
theorem C7_witness :
    ctrString 0 3 = "0%" ∧
    ∃ h : Nat, 2 * ((h : ℤ) * 10 - 10000 * 3).natAbs ≤ 10 ∧
      ctrString 10 3 = toString (h / 100) ++ "." ++ pad2 (h % 100) ++ "%" :=
  ⟨(C7_ctr_format [] [] (computeStatsRow [] rowA) 0 3).2.1 rfl,
   (C7_ctr_format [] [] (computeStatsRow [] rowA) 10 3).2.2.1 (by decide)⟩

/-! ## C8: creation-time validation -/

/-- C8 counterexample: main.go's add endpoint performs no validation:
an ad whose kind is neither text nor image and whose redirect target is
empty is accepted and stored, where the claim demands a ValidationError
and no store. -/
theorem C8_counterexample :
    adBogus.adType ≠ "text" ∧ adBogus.adType ≠ "image" ∧ adBogus.redirectUrl = "" ∧
    handleAddAdMain [] adBogus = .ok [adBogus] := by decide

/-- C8 (amended): V1's `handleAddAd` validates exactly the claim's four
kind-dependent conditions before persisting, fails with the error naming
the violated field and stores nothing on failure; main.go's add endpoint
performs no validation and persists the decoded request as-is. -/
theorem C8_validation_amended (store : List AdRow) (n : Nat) (ad : AdInput) :
    (validateAd ad = none ↔
      ((ad.adType = "text" ∨ ad.adType = "image") ∧ ad.redirectUrl ≠ "" ∧
       (ad.adType = "text" → ad.content ≠ "") ∧
       (ad.adType = "image" → ad.imageUrl ≠ ""))) ∧
    (∀ e, validateAd ad = some e → handleAddAdV1 store n ad = .error e) ∧
    (validateAd ad = none → handleAddAdV1 store n ad = .ok (store ++ [toRowV1 n ad])) ∧
    (validateAd ad = some (.invalidAdType ad.adType) →
       ad.adType ≠ "text" ∧ ad.adType ≠ "image") ∧
    (validateAd ad = some .redirectUrlRequired → ad.redirectUrl = "") ∧
    (validateAd ad = some .contentRequired → ad.adType = "text" ∧ ad.content = "") ∧
    (validateAd ad = some .imageUrlRequired → ad.adType = "image" ∧ ad.imageUrl = "") := by
  refine ⟨?_, ?_, ?_, ?_, ?_, ?_, ?_⟩
  · unfold validateAd
    split_ifs <;> simp_all <;> tauto
  · intro e he
    unfold handleAddAdV1
    rw [he]
  · intro he
    unfold handleAddAdV1
    rw [he]
  · intro he
    unfold validateAd at he
    split_ifs at he <;> simp_all
  · intro he
    unfold validateAd at he
    split_ifs at he <;> simp_all
  · intro he
    unfold validateAd at he
    split_ifs at he <;> simp_all
  · intro he
    unfold validateAd at he
    split_ifs at he <;> simp_all

/-- C8 witness: a text ad with empty content is rejected with the error
naming the content field and nothing stored; a well-formed image ad is
stored. -/
theorem C8_witness :
    handleAddAdV1 [] 5 adTextNoContent = .error .contentRequired ∧
    handleAddAdV1 [] 5 adUpd = .ok ([] ++ [toRowV1 5 adUpd]) :=
  ⟨(C8_validation_amended [] 5 adTextNoContent).2.1 .contentRequired (by decide),
   (C8_validation_amended [] 5 adUpd).2.2.1 (by decide)⟩

/-! ## C9: click logged before the empty-redirect check -/

/-- C9: in main.go's click-through path, when the ad exists but its
stored redirect target is empty, the 404 "no redirect for this ad"
response is produced with the click row already appended — the error
response leaves the event log changed. -/
theorem C9_click_logged_before_redirect_check
    (ads : List MainAd) (log : List ClickRow) (idStr ip : String) (i : Nat) (ad : MainAd)
    (hs : idStr ≠ "") (hp : parseNat? idStr = some i) (hf : findAdMain ads i = some ad)
    (hr : ad.redirectUrl = "") :
    handleAdClick ads log idStr ip = (.noRedirect, log ++ [⟨i, ip⟩]) ∧
    log ++ [(⟨i, ip⟩ : ClickRow)] ≠ log := by
  constructor
  · simp [handleAdClick, hs, hp, hf, hr]
  · intro hcon
    have hlen := congrArg List.length hcon
    simp at hlen

/-- C9 witness: the store holds ad 3 with an empty redirect target; the
click request for id 3 answers the no-redirect error with the click
already in the log. -/
theorem C9_witness :
    handleAdClick [adMNoRedirect] [] "3" "9.9.9.9"
        = (.noRedirect, [] ++ [(⟨3, "9.9.9.9"⟩ : ClickRow)]) ∧
    ([] : List ClickRow) ++ [(⟨3, "9.9.9.9"⟩ : ClickRow)] ≠ [] :=
  C9_click_logged_before_redirect_check [adMNoRedirect] [] "3" "9.9.9.9" 3 adMNoRedirect
    (by decide) (by decide) (by decide) rfl

/-! ## C10: update is a full replacement -/

/-- C10: for an existing id and a valid request, V1's update overwrites
all seven stored fields of exactly the row with that id with the
request's (decoded, zero-defaulted) values and touches no other row. -/
theorem C10_update_full_replacement (store : List AdRow) (id : Nat) (ad : AdInput)
    (hv : validateAd ad = none) (hex : (store.any fun r => r.id = id) = true) :
    ∃ res, handleUpdateAdV1 store id ad = .ok res ∧
      res = (store.map fun r => if r.id = id then updateRow ad r else r) ∧
      res.length = store.length ∧
      (∀ r ∈ store, r.id ≠ id → r ∈ res) ∧
      (∀ r ∈ res, r.id = id →
        r.adType = ad.adType ∧ r.content = ad.content ∧ r.imageUrl = ad.imageUrl ∧
        r.redirectUrl = ad.redirectUrl ∧ r.tags = joinTags ad.tags ∧
        r.campaignId = ad.campaignId ∧ r.expiresAt = ad.expiresAt) := by
  refine ⟨(store.map fun r => if r.id = id then updateRow ad r else r), ?_, rfl, by simp, ?_, ?_⟩
  · unfold handleUpdateAdV1
    rw [hv, if_pos hex]
  · intro r hr hne
    have : (if r.id = id then updateRow ad r else r) = r := if_neg hne
    exact this ▸ List.mem_map_of_mem _ hr
  · intro r hr hid
    obtain ⟨a, _, ha⟩ := List.mem_map.mp hr
    by_cases hcase : a.id = id
    · rw [if_pos hcase] at ha
      subst ha
      exact ⟨rfl, rfl, rfl, rfl, rfl, rfl, rfl⟩
    · rw [if_neg hcase] at ha
      subst ha
      exact absurd hid hcase

/-- C10 witness: updating ad 1 with a full image-ad request replaces all
seven fields of the stored row. -/
theorem C10_witness :
    ∃ res, handleUpdateAdV1 [rowA] 1 adUpd = .ok res ∧
      res = ([rowA].map fun r => if r.id = 1 then updateRow adUpd r else r) ∧
      res.length = [rowA].length ∧
      (∀ r ∈ [rowA], r.id ≠ 1 → r ∈ res) ∧
      (∀ r ∈ res, r.id = 1 →
        r.adType = adUpd.adType ∧ r.content = adUpd.content ∧ r.imageUrl = adUpd.imageUrl ∧
        r.redirectUrl = adUpd.redirectUrl ∧ r.tags = joinTags adUpd.tags ∧
        r.campaignId = adUpd.campaignId ∧ r.expiresAt = adUpd.expiresAt) :=
  C10_update_full_replacement [rowA] 1 adUpd (by decide) (by decide)
